import Mathlib

/-!
Verification of the JedBonize photo-framing core (src/src/App.tsx).

The source is a single React component.  We shallowly embed the state it
manages and the event handlers that mutate it, with JavaScript numbers
modelled as exact rationals (ℚ).  Pure state updates become Lean
functions; handlers that bail out when no profile image is loaded act on
`Option ImageState` exactly as the code guards on `profileImage` being
null.
-/

/-- Mirrors the `ImageState` interface (App.tsx lines 6-12): the photo's
source data URL and its user-adjustable transform. -/
structure ImageState where
  src : String
  x : ℚ
  y : ℚ
  scale : ℚ
  rotation : ℚ
  deriving DecidableEq, Repr

/-- The zoom direction argument `'in' | 'out'` of `handleZoom`. -/
inductive ZoomDir
  | zin
  | zout
  deriving DecidableEq, Repr

/-- `const factor = direction === 'in' ? 1.1 : 0.9` (App.tsx line 170). -/
def zoomFactor : ZoomDir → ℚ
  | .zin => 11 / 10
  | .zout => 9 / 10

/-- `handleZoom` (App.tsx lines 168-176): if no profile image is loaded
the handler returns without changing anything; otherwise the scale is
multiplied by the factor and clamped via
`Math.max(0.1, Math.min(3, prev.scale * factor))`. -/
def handleZoom (dir : ZoomDir) (s : Option ImageState) : Option ImageState :=
  match s with
  | none => none
  | some img => some { img with scale := max (1 / 10) (min 3 (img.scale * zoomFactor dir)) }

/-- A finite sequence of zoom button presses, applied left to right. -/
def applyZooms (s : Option ImageState) (ops : List ZoomDir) : Option ImageState :=
  ops.foldl (fun st d => handleZoom d st) s

/-- `handleRotate` (App.tsx lines 151-158): adds 90 to the current
rotation, leaving `x`, `y` and `scale` untouched; no wrap, no clamp. -/
def handleRotate (s : Option ImageState) : Option ImageState :=
  match s with
  | none => none
  | some img => some { img with rotation := img.rotation + 90 }

/-- `handlePreciseRotate` (App.tsx lines 160-166): overwrites the
rotation with the slider value, unchanged. -/
def handlePreciseRotate (rotation : ℚ) (s : Option ImageState) : Option ImageState :=
  match s with
  | none => none
  | some img => some { img with rotation := rotation }

/-- The rotation slider element (App.tsx lines 629-643) is an HTML range
input with `min="0"` and `max="360"`, default integer step; its
`onChange` feeds `parseInt` of the value to `handlePreciseRotate`.  So a
slider position is an integer `v` with `0 ≤ v ≤ 360`, and selecting it
stores rotation `v`. -/
def sliderInput (v : ℤ) (s : Option ImageState) : Option ImageState :=
  handlePreciseRotate (v : ℚ) s

/- ### Claim C2: zoom keeps the scale inside [0.1, 3.0] -/

lemma zoomStep_mem (x f : ℚ) :
    1 / 10 ≤ max (1 / 10) (min 3 (x * f)) ∧ max (1 / 10) (min 3 (x * f)) ≤ 3 := by
  constructor
  · exact le_max_left _ _
  · apply max_le
    · norm_num
    · exact min_le_left _ _

lemma applyZooms_some (img : ImageState) (ops : List ZoomDir) :
    ∃ img', applyZooms (some img) ops = some img' ∧
      (ops = [] → img' = img) ∧
      (ops ≠ [] → 1 / 10 ≤ img'.scale ∧ img'.scale ≤ 3) := by
  induction ops generalizing img with
  | nil => exact ⟨img, rfl, fun _ => rfl, fun h => absurd rfl h⟩
  | cons d rest ih =>
    have step : applyZooms (some img) (d :: rest) =
        applyZooms (some { img with scale := max (1 / 10) (min 3 (img.scale * zoomFactor d)) }) rest := rfl
    obtain ⟨img', h1, h2, h3⟩ := ih { img with scale := max (1 / 10) (min 3 (img.scale * zoomFactor d)) }
    refine ⟨img', by rw [step, h1], fun h => absurd h (by simp), fun _ => ?_⟩
    rcases Decidable.em (rest = []) with hr | hr
    · rw [h2 hr]
      exact zoomStep_mem img.scale (zoomFactor d)
    · exact h3 hr

/-- C2: starting from any scale in [0.1, 3.0], any finite sequence of
zoom-in / zoom-out presses (multiply by 1.1 or 0.9, then clamp) leaves
the scale in [0.1, 3.0]. -/
theorem zoom_scale_invariant (img : ImageState) (ops : List ZoomDir)
    (hlo : 1 / 10 ≤ img.scale) (hhi : img.scale ≤ 3) :
    ∃ img', applyZooms (some img) ops = some img' ∧
      1 / 10 ≤ img'.scale ∧ img'.scale ≤ 3 := by
  obtain ⟨img', h1, h2, h3⟩ := applyZooms_some img ops
  refine ⟨img', h1, ?_⟩
  rcases Decidable.em (ops = []) with h | h
  · rw [h2 h]; exact ⟨hlo, hhi⟩
  · exact h3 h

/-- Witness for C2: a concrete run (start at scale 1, zoom in then out)
stays inside the bounds. -/
theorem zoom_scale_invariant_applied :
    ∃ img', applyZooms (some ⟨"p", 0, 0, 1, 0⟩) [ZoomDir.zin, ZoomDir.zout] = some img' ∧
      1 / 10 ≤ img'.scale ∧ img'.scale ≤ 3 :=
  zoom_scale_invariant ⟨"p", 0, 0, 1, 0⟩ [ZoomDir.zin, ZoomDir.zout]
    (by norm_num) (by norm_num)

/- ### Claim C3: fifty zoom-ins from scale 1 clamp to exactly 3 -/

/-- The scale value after a sequence of zoom presses: the scale-field
part of `applyZooms`, convenient for computation. -/
def scaleAfter (s : ℚ) (ops : List ZoomDir) : ℚ :=
  ops.foldl (fun t d => max (1 / 10) (min 3 (t * zoomFactor d))) s

lemma applyZooms_eq_scaleAfter (img : ImageState) (ops : List ZoomDir) :
    applyZooms (some img) ops = some { img with scale := scaleAfter img.scale ops } := by
  induction ops generalizing img with
  | nil => cases img; rfl
  | cons d rest ih =>
    have h : applyZooms (some img) (d :: rest) =
        applyZooms (some { img with scale := max (1 / 10) (min 3 (img.scale * zoomFactor d)) }) rest := rfl
    rw [h, ih]
    rfl

lemma scaleAfter_zin_fixed (n : ℕ) :
    scaleAfter 3 (List.replicate n ZoomDir.zin) = 3 := by
  induction n with
  | zero => rfl
  | succ k ih =>
    have h : scaleAfter 3 (List.replicate (k + 1) ZoomDir.zin) =
        scaleAfter (max (1 / 10) (min 3 (3 * zoomFactor ZoomDir.zin)))
          (List.replicate k ZoomDir.zin) := rfl
    rw [h]
    have hc : max (1 / 10 : ℚ) (min 3 (3 * zoomFactor ZoomDir.zin)) = 3 := by
      norm_num [zoomFactor]
    rw [hc, ih]

lemma scaleAfter_twelve_zins : scaleAfter 1 (List.replicate 12 ZoomDir.zin) = 3 := by
  have h : List.replicate 12 ZoomDir.zin =
      [ZoomDir.zin, ZoomDir.zin, ZoomDir.zin, ZoomDir.zin, ZoomDir.zin, ZoomDir.zin,
       ZoomDir.zin, ZoomDir.zin, ZoomDir.zin, ZoomDir.zin, ZoomDir.zin, ZoomDir.zin] := rfl
  rw [h]
  norm_num [scaleAfter, zoomFactor, List.foldl, min_def, max_def]

/-- C3: pressing zoom-in 50 times from scale 1 yields a final scale of
exactly 3 (the clamp engages once 1.1^n exceeds 3), not 1.1^50. -/
theorem fifty_zoom_ins_clamp_to_three :
    (applyZooms (some ⟨"p", 0, 0, 1, 0⟩) (List.replicate 50 ZoomDir.zin)).map ImageState.scale
      = some 3 ∧ ((11 / 10 : ℚ) ^ 50 ≠ 3) := by
  constructor
  · rw [applyZooms_eq_scaleAfter]
    have h50 : List.replicate 50 ZoomDir.zin =
        List.replicate 12 ZoomDir.zin ++ List.replicate 38 ZoomDir.zin := by
      rw [← List.replicate_add]
    have happ : scaleAfter 1 (List.replicate 12 ZoomDir.zin ++ List.replicate 38 ZoomDir.zin) =
        scaleAfter (scaleAfter 1 (List.replicate 12 ZoomDir.zin))
          (List.replicate 38 ZoomDir.zin) := by
      simp [scaleAfter, List.foldl_append]
    have hval : scaleAfter 1 (List.replicate 50 ZoomDir.zin) = 3 := by
      rw [h50, happ, scaleAfter_twelve_zins, scaleAfter_zin_fixed]
    rw [hval]
    rfl
  · norm_num

/- ### Claim C10: the rotate button adds exactly 90 degrees, unclamped -/

/-- C10: `n` presses of the rotate button set rotation to exactly
`r + 90·n` — no wrap-around or clamping, so repeated presses drive the
value arbitrarily far above 360 — and leave `x`, `y` and `scale`
unchanged. -/
theorem rotate_button_adds_ninety (img : ImageState) (n : ℕ) :
    handleRotate^[n] (some img) = some { img with rotation := img.rotation + 90 * n } := by
  induction n generalizing img with
  | zero => simp
  | succ k ih =>
    rw [Function.iterate_succ_apply]
    have h1 : handleRotate (some img) = some { img with rotation := img.rotation + 90 } := rfl
    rw [h1, ih]
    congr 1
    push_cast
    ring

/- ### The export mapping (`handleDownload`, App.tsx lines 178-242) -/

/-- The on-screen geometry read just before export: the displayed frame
size (`frameImgElementRef.current?.offsetWidth || clientWidth`, lines
189-190, given here already resolved) and the photo's displayed base
size before CSS transforms (`profileImgElementRef`, lines 215-216). -/
structure DisplayGeometry where
  frameWidth : ℚ
  frameHeight : ℚ
  photoBaseWidth : ℚ
  photoBaseHeight : ℚ
  deriving DecidableEq, Repr

/-- The frame image's intrinsic pixel resolution (`frameImg.width`,
`frameImg.height`), which sets the output canvas size (lines 199-200). -/
structure FrameNaturalSize where
  width : ℚ
  height : ℚ
  deriving DecidableEq, Repr

/-- The fully resolved drawing parameters computed by the export path
(lines 204-223): the photo's anchor point on the output canvas, its
destination size, and the rotation (kept in degrees; the code multiplies
by π/180 only when calling `ctx.rotate`). -/
structure OutputDraw where
  anchorX : ℚ
  anchorY : ℚ
  destWidth : ℚ
  destHeight : ℚ
  rotationDegrees : ℚ
  deriving DecidableEq, Repr

/-- The preview-to-output coordinate mapping, exactly as computed inside
`handleDownload` (App.tsx lines 204-223):
`scaleX = frameImg.width / displayedFrameWidth`,
`actualX = (displayedFrameWidth / 2 + profileImage.x) * scaleX`,
`destWidth = baseDisplayedProfileWidth * profileImage.scale * Math.min(scaleX, scaleY)`,
and symmetrically for the y axis. -/
def mapToOutput (t : ImageState) (g : DisplayGeometry) (n : FrameNaturalSize) : OutputDraw :=
  let scaleX := n.width / g.frameWidth
  let scaleY := n.height / g.frameHeight
  { anchorX := (g.frameWidth / 2 + t.x) * scaleX
    anchorY := (g.frameHeight / 2 + t.y) * scaleY
    destWidth := g.photoBaseWidth * t.scale * min scaleX scaleY
    destHeight := g.photoBaseHeight * t.scale * min scaleX scaleY
    rotationDegrees := t.rotation }

/-- The observable outcome of `handleDownload`: an error toast (line
180), a silent return (missing 2d context, line 186), or a completed
draw plus the download filename (lines 196-237). -/
inductive DownloadResult
  | errorToast (msg : String)
  | silentAbort
  | drawn (draw : OutputDraw) (filename : String)
  deriving DecidableEq, Repr

/-- `handleDownload` (App.tsx lines 178-242).  The guard at line 179
checks `canvasRef.current`, `profileImage`, `frameImage` and
`canvasContainerRef.current`; the missing-context check at line 186
returns silently.  Past the guards, the two `Image` onload callbacks
fire (decoding the data URL / frame path) and the draw runs with the
mapping above; no zero-size check of the display geometry is performed
anywhere. -/
def handleDownload (canvasReady : Bool) (profileImage : Option ImageState)
    (frameImage : Option String) (containerReady ctxReady : Bool)
    (g : DisplayGeometry) (n : FrameNaturalSize) : DownloadResult :=
  match profileImage, frameImage with
  | some img, some _ =>
    if ¬canvasReady ∨ ¬containerReady then
      .errorToast "Please upload both profile image and frame first!"
    else if ¬ctxReady then
      .silentAbort
    else
      .drawn (mapToOutput img g n) "twibbon-image.png"
  | _, _ => .errorToast "Please upload both profile image and frame first!"

/- ### Claim C1: the anchor formula and offset-zero centering -/

/-- C1: with positive displayed frame dimensions, the export mapping
computes `anchorX = (frameWidth/2 + offsetX) * (naturalWidth/frameWidth)`
and `anchorY = (frameHeight/2 + offsetY) * (naturalHeight/frameHeight)`;
with zero offsets the anchor is exactly the natural frame's center. -/
theorem anchor_mapping_formula (t : ImageState) (g : DisplayGeometry) (n : FrameNaturalSize)
    (hw : 0 < g.frameWidth) (hh : 0 < g.frameHeight) :
    (mapToOutput t g n).anchorX = (g.frameWidth / 2 + t.x) * (n.width / g.frameWidth) ∧
    (mapToOutput t g n).anchorY = (g.frameHeight / 2 + t.y) * (n.height / g.frameHeight) ∧
    (t.x = 0 → (mapToOutput t g n).anchorX = n.width / 2) ∧
    (t.y = 0 → (mapToOutput t g n).anchorY = n.height / 2) := by
  refine ⟨rfl, rfl, fun hx => ?_, fun hy => ?_⟩
  · show (g.frameWidth / 2 + t.x) * (n.width / g.frameWidth) = n.width / 2
    rw [hx]
    field_simp
    ring
  · show (g.frameHeight / 2 + t.y) * (n.height / g.frameHeight) = n.height / 2
    rw [hy]
    field_simp
    ring

/-- Witness for C1, spec Scenario B: displayed frame 300×300, natural
frame 1000×1000, offsetX = 30 gives `anchorX = (150+30)*(1000/300) = 600`;
and with both offsets 0 the anchor is the natural center (500, 500). -/
theorem anchor_mapping_formula_applied :
    (mapToOutput ⟨"p", 30, 0, 1, 0⟩ ⟨300, 300, 150, 150⟩ ⟨1000, 1000⟩).anchorX = 600 ∧
    (mapToOutput ⟨"p", 0, 0, 1, 0⟩ ⟨300, 300, 150, 150⟩ ⟨1000, 1000⟩).anchorX = 500 ∧
    (mapToOutput ⟨"p", 0, 0, 1, 0⟩ ⟨300, 300, 150, 150⟩ ⟨1000, 1000⟩).anchorY = 500 := by
  have hB := anchor_mapping_formula ⟨"p", 30, 0, 1, 0⟩ ⟨300, 300, 150, 150⟩ ⟨1000, 1000⟩
    (by norm_num) (by norm_num)
  have hA := anchor_mapping_formula ⟨"p", 0, 0, 1, 0⟩ ⟨300, 300, 150, 150⟩ ⟨1000, 1000⟩
    (by norm_num) (by norm_num)
  refine ⟨?_, ?_, ?_⟩
  · rw [hB.1]; norm_num
  · rw [hA.2.2.1 rfl]; norm_num
  · rw [hA.2.2.2 rfl]; norm_num

/- ### Claim C4: no degenerate-layout guard in the export path -/

/-- Counterexample to C4: invoking the export path with a displayed
frame size of 0×0 (all refs present, context available) does NOT fail or
skip: it proceeds straight to the draw, dividing by the zero dimension
when forming the scale factors.  No `DegenerateLayout` outcome exists
anywhere in the code. -/
theorem download_zero_width_not_degenerate :
    handleDownload true (some ⟨"p", 0, 0, 1, 0⟩) (some "/frames/DP.png") true true
      ⟨0, 0, 150, 150⟩ ⟨1000, 1000⟩ =
      .drawn (mapToOutput ⟨"p", 0, 0, 1, 0⟩ ⟨0, 0, 150, 150⟩ ⟨1000, 1000⟩)
        "twibbon-image.png" := rfl

/-- C4 (amended): the export path performs no check of the display
geometry at all — whenever the asset/ref guards pass, the draw proceeds
with whatever geometry is present, including zero width/height; it never
reports a degenerate-layout error. -/
theorem download_proceeds_without_layout_check (img : ImageState) (fr : String)
    (g : DisplayGeometry) (n : FrameNaturalSize) :
    handleDownload true (some img) (some fr) true true g n =
      .drawn (mapToOutput img g n) "twibbon-image.png" := rfl

/- ### Claim C5: export before the photo is ready yields an error and no bytes -/

/-- C5: if export is requested while the photo state is still unset (its
asynchronous read/decode has not completed, so `profileImage` is null) or
the frame path is unset, `handleDownload` stops at its guard with the
user-visible error toast and draws nothing; nothing is queued for
retry — the function simply returns. -/
theorem download_asset_not_ready (canvasReady containerReady ctxReady : Bool)
    (img : ImageState) (fr? : Option String) (g : DisplayGeometry) (n : FrameNaturalSize) :
    handleDownload canvasReady none fr? containerReady ctxReady g n =
      .errorToast "Please upload both profile image and frame first!" ∧
    handleDownload canvasReady (some img) none containerReady ctxReady g n =
      .errorToast "Please upload both profile image and frame first!" := by
  cases fr? <;> exact ⟨rfl, rfl⟩

/- ### Claim C6: the rotation slider domain -/

/-- Counterexample to C6: the slider's maximum position 360 is a legal
input (`max="360"`), and selecting it stores rotation 360, which is NOT
inside the half-open interval [0, 360). -/
theorem slider_360_escapes_half_open_domain :
    sliderInput 360 (some ⟨"p", 0, 0, 1, 0⟩) = some ⟨"p", 0, 0, 1, 360⟩ ∧
      ¬ (((360 : ℚ)) < 360) := ⟨rfl, by norm_num⟩

/-- C6 (amended): after any slider input — an integer position `v` with
`0 ≤ v ≤ 360` — the stored rotation equals `v` and lies in the CLOSED
interval [0, 360]; the endpoint 360 is attainable because the slider's
range is inclusive. -/
theorem slider_rotation_in_closed_interval (img : ImageState) (v : ℤ)
    (h0 : 0 ≤ v) (h1 : v ≤ 360) :
    sliderInput v (some img) = some { img with rotation := (v : ℚ) } ∧
      0 ≤ ((v : ℚ)) ∧ ((v : ℚ)) ≤ 360 := by
  refine ⟨rfl, ?_, ?_⟩
  · exact_mod_cast h0
  · exact_mod_cast h1

/-- Witness for the amended C6 at the slider position 180. -/
theorem slider_rotation_in_closed_interval_applied :
    sliderInput 180 (some ⟨"p", 0, 0, 1, 0⟩) = some ⟨"p", 0, 0, 1, 180⟩ ∧
      0 ≤ ((180 : ℚ)) ∧ ((180 : ℚ)) ≤ 360 :=
  slider_rotation_in_closed_interval ⟨"p", 0, 0, 1, 0⟩ 180 (by norm_num) (by norm_num)

/- ### The application state and the remaining handlers -/

/-- A file offered to the upload input: its declared MIME type
(`file.type`) and its content (read into a data URL by `FileReader`). -/
structure UploadFile where
  type : String
  content : String
  deriving DecidableEq, Repr

/-- The `type` argument of `handleImageUpload`: `'profile' | 'frame'`. -/
inductive UploadType
  | profile
  | frame
  deriving DecidableEq, Repr

/-- The component state relevant to the claims: the theme flag, the
photo (`profileImage`) and the frame path (`frameImage`), with their
`useState` initial values (App.tsx lines 23-25). -/
structure AppState where
  isDarkMode : Bool
  profileImage : Option ImageState
  frameImage : Option String
  deriving DecidableEq, Repr

/-- The initial state: dark mode on, no photo, frame `/frames/DP.png`. -/
def initialState : AppState :=
  { isDarkMode := true, profileImage := none, frameImage := some "/frames/DP.png" }

/-- `handleImageUpload` (App.tsx lines 45-70), observed after the
`FileReader` completes: no file selected is a no-op; a declared content
type not starting with `image/` (the code's
`!file.type.startsWith('image/')`, rendered here as a character-list
prefix test) produces the error toast and leaves the state untouched;
otherwise only an upload of type `'profile'` replaces the photo with the
fresh default transform (the `'frame'` branch does nothing).  Returns
the new state and the toast shown, if any. -/
def handleImageUpload (file? : Option UploadFile) (ty : UploadType)
    (st : AppState) : AppState × Option String :=
  match file? with
  | none => (st, none)
  | some f =>
    if ¬ ("image/".data <+: f.type.data) then
      (st, some "Please select a valid image file")
    else
      match ty with
      | .profile =>
        ({ st with profileImage := some { src := f.content, x := 0, y := 0, scale := 1, rotation := 0 } },
          some "Profile image uploaded successfully!")
      | .frame => (st, none)

/-- The net effect on the photo of a drag gesture move
(`handleMouseMove` / `handleTouchMove`, App.tsx lines 96-145): the
offsets shift by the pointer's displacement since the drag start. -/
def handleDrag (dx dy : ℚ) (s : Option ImageState) : Option ImageState :=
  match s with
  | none => none
  | some img => some { img with x := img.x + dx, y := img.y + dy }

/-- `clearAll` (App.tsx lines 384-389): drops the photo and RESETS the
frame path to `/frames/sample-frame.svg`. -/
def clearAll (st : AppState) : AppState :=
  { st with profileImage := none, frameImage := some "/frames/sample-frame.svg" }

/-- Every state-mutating operation the UI exposes to the user. -/
inductive UIEvent
  | upload (file? : Option UploadFile) (ty : UploadType)
  | rotateBtn
  | sliderSet (v : ℤ)
  | zoom (d : ZoomDir)
  | drag (dx dy : ℚ)
  | toggleTheme
  | clearBtn
  | downloadBtn
  deriving DecidableEq, Repr

/-- One user interaction applied to the component state, dispatching to
the corresponding handler; the download button never mutates state. -/
def step (st : AppState) : UIEvent → AppState
  | .upload f ty => (handleImageUpload f ty st).1
  | .rotateBtn => { st with profileImage := handleRotate st.profileImage }
  | .sliderSet v => { st with profileImage := sliderInput v st.profileImage }
  | .zoom d => { st with profileImage := handleZoom d st.profileImage }
  | .drag dx dy => { st with profileImage := handleDrag dx dy st.profileImage }
  | .toggleTheme => { st with isDarkMode := !st.isDarkMode }
  | .clearBtn => clearAll st
  | .downloadBtn => st

/- ### Claim C7: the frame, drawn last, occludes the photo where opaque -/

/-- An RGBA pixel with rational components; `a = 1` means fully opaque. -/
structure Color where
  r : ℚ
  g : ℚ
  b : ℚ
  a : ℚ
  deriving DecidableEq, Repr

/-- The 2d canvas default compositing rule (source-over) for straight
alpha: the incoming `src` pixel is blended onto the existing `dst`
pixel. -/
def sourceOver (src dst : Color) : Color :=
  let outA := src.a + dst.a * (1 - src.a)
  if outA = 0 then ⟨0, 0, 0, 0⟩
  else
    ⟨(src.r * src.a + dst.r * dst.a * (1 - src.a)) / outA,
     (src.g * src.a + dst.g * dst.a * (1 - src.a)) / outA,
     (src.b * src.a + dst.b * dst.a * (1 - src.a)) / outA,
     outA⟩

/-- The cleared canvas pixel (`ctx.clearRect`, App.tsx line 201). -/
def transparentPixel : Color := ⟨0, 0, 0, 0⟩

/-- The export render sequence of `handleDownload` (App.tsx lines
201-229) at one output pixel: the canvas is cleared, the transformed
photo layer is drawn (the translate/rotate/drawImage block, lines
208-226, abstracted as an arbitrary per-pixel layer since it may place
any photo content anywhere for any transform), and the frame is drawn
LAST at (0,0) spanning the full natural canvas (line 229). -/
def renderExport (photoLayer framePix : ℚ × ℚ → Color) (p : ℚ × ℚ) : Color :=
  sourceOver (framePix p) (sourceOver (photoLayer p) transparentPixel)

lemma sourceOver_opaque (src dst : Color) (h : src.a = 1) : sourceOver src dst = src := by
  obtain ⟨r, g, b, a⟩ := src
  simp only at h
  subst h
  simp [sourceOver]

/-- C7: because the frame is drawn after the photo, every output pixel
where the frame is fully opaque shows exactly the frame's pixel —
whatever the photo layer (hence for every transform value) put there
first. -/
theorem frame_drawn_last_occludes (photoLayer framePix : ℚ × ℚ → Color)
    (p : ℚ × ℚ) (h : (framePix p).a = 1) :
    renderExport photoLayer framePix p = framePix p :=
  sourceOver_opaque _ _ h

/-- Witness for C7: an opaque red frame pixel over an opaque green photo
pixel comes out red. -/
theorem frame_drawn_last_occludes_applied :
    renderExport (fun _ => ⟨0, 1, 0, 1⟩) (fun _ => ⟨1, 0, 0, 1⟩) (0, 0) = ⟨1, 0, 0, 1⟩ :=
  frame_drawn_last_occludes (fun _ => ⟨0, 1, 0, 1⟩) (fun _ => ⟨1, 0, 0, 1⟩) (0, 0) rfl

/- ### Claim C8: a non-image upload is rejected and changes nothing -/

/-- C8: whenever the offered file's declared content type does not start
with `image/`, `handleImageUpload` returns the state COMPLETELY
unchanged (the prior photo and its offsets/scale/rotation survive) and
shows the user-visible rejection toast. -/
theorem invalid_upload_keeps_state (st : AppState) (f : UploadFile) (ty : UploadType)
    (h : ¬ ("image/".data <+: f.type.data)) :
    handleImageUpload (some f) ty st = (st, some "Please select a valid image file") := by
  simp [handleImageUpload, h]

/-- Witness for C8: uploading a `text/plain` file over an existing
transformed photo leaves the state intact and raises the toast. -/
theorem invalid_upload_keeps_state_applied :
    handleImageUpload (some ⟨"text/plain", "hello"⟩) UploadType.profile
        ⟨true, some ⟨"p", 5, -7, 2, 90⟩, some "/frames/DP.png"⟩ =
      (⟨true, some ⟨"p", 5, -7, 2, 90⟩, some "/frames/DP.png"⟩,
        some "Please select a valid image file") :=
  invalid_upload_keeps_state ⟨true, some ⟨"p", 5, -7, 2, 90⟩, some "/frames/DP.png"⟩
    ⟨"text/plain", "hello"⟩ UploadType.profile (by decide)

/- ### Claim C9: is the frame immutable for the session? -/

/-- Counterexample to C9: the Clear All button — an operation exposed to
the user — CHANGES which frame image is used: from the startup path
`/frames/DP.png` to `/frames/sample-frame.svg`. -/
theorem clear_all_changes_frame_path :
    initialState.frameImage = some "/frames/DP.png" ∧
    (step initialState UIEvent.clearBtn).frameImage = some "/frames/sample-frame.svg" ∧
    (step initialState UIEvent.clearBtn).frameImage ≠ initialState.frameImage := by
  refine ⟨rfl, rfl, ?_⟩
  decide

lemma handleImageUpload_frame (f : Option UploadFile) (ty : UploadType) (st : AppState) :
    (handleImageUpload f ty st).1.frameImage = st.frameImage := by
  cases f with
  | none => rfl
  | some file =>
    simp only [handleImageUpload]
    split
    · rfl
    · cases ty <;> rfl

/-- C9 (amended): the frame is loaded at startup from the fixed path
`/frames/DP.png` and no user operation can choose a frame — but the
frame reference is not immutable: every operation other than Clear All
leaves it unchanged, while Clear All resets it to the other hard-coded
path `/frames/sample-frame.svg`. -/
theorem frame_fixed_except_clear :
    initialState.frameImage = some "/frames/DP.png" ∧
    ∀ (st : AppState) (e : UIEvent),
      (step st e).frameImage = st.frameImage ∨
        (e = UIEvent.clearBtn ∧ (step st e).frameImage = some "/frames/sample-frame.svg") := by
  refine ⟨rfl, fun st e => ?_⟩
  cases e with
  | upload f ty => exact Or.inl (handleImageUpload_frame f ty st)
  | rotateBtn => exact Or.inl rfl
  | sliderSet v => exact Or.inl rfl
  | zoom d => exact Or.inl rfl
  | drag dx dy => exact Or.inl rfl
  | toggleTheme => exact Or.inl rfl
  | clearBtn => exact Or.inr ⟨rfl, rfl⟩
  | downloadBtn => exact Or.inl rfl
